import Mathlib

/-!
Verification development for the parametric lamp generator
(src/rhino_lamp_edit_script.py).

Modelling conventions:
- Python floats are embedded as exact rationals for the parameter arithmetic
  and as real numbers for the geometry (trigonometric point construction).
- The Python `int(...)` conversion is truncation toward zero, embedded as
  `pyInt`.
- The geometry kernel (rhinoscriptsyntax) is out of scope for the program
  (spec section 1 and 6); kernel primitive constructors are embedded as
  constructors of a free `Solid` and `Curve` term algebra, and primitive
  creation always succeeds.  Null-propagation branches of the program that
  guard KERNEL failures therefore collapse to their success arm; branches
  that the program itself decides (early returns, skip conditions, boolean
  dispatch) are kept verbatim.
-/

set_option maxHeartbeats 1600000

/-- Python int() conversion on an exact rational: truncation toward zero. -/
def pyInt (q : ℚ) : ℤ := if q < 0 then ⌈q⌉ else ⌊q⌋

/-- Helper clamp_min of the source: value if value >= minimum else minimum. -/
def clamp_min {α : Type} [LinearOrder α] (value minimum : α) : α :=
  if value ≥ minimum then value else minimum

/-- Helper clamp_range of the source: saturate value into [min_value, max_value]. -/
def clamp_range {α : Type} [LinearOrder α] (value min_value max_value : α) : α :=
  if value < min_value then min_value
  else if value > max_value then max_value
  else value

/-- The ParameterSet: one field per key of the PARAMS mapping of the source.
The program constructs the mapping from the full default dictionary before
normalization, so every key is present. -/
structure Params where
  base_type : String
  base_width : ℚ
  base_depth : ℚ
  base_height : ℚ
  triangle_side : ℚ
  vase_height : ℚ
  vase_base_radius : ℚ
  vase_mid_radius : ℚ
  vase_neck_radius : ℚ
  twist_height : ℚ
  twist_radius : ℚ
  twist_top_scale : ℚ
  twist_sides : ℚ
  twist_layers : ℚ
  twist_rotation : ℚ
  spiral_height : ℚ
  spiral_radius : ℚ
  spiral_top_scale : ℚ
  spiral_waves : ℚ
  spiral_wave_amp : ℚ
  spiral_layers : ℚ
  spiral_twist : ℚ
  spiral_points_per_wave : ℚ
  ripple_height : ℚ
  ripple_radius : ℚ
  ripple_top_scale : ℚ
  ripple_waves : ℚ
  ripple_wave_amp : ℚ
  ripple_layers : ℚ
  ripple_twist : ℚ
  ripple_points_per_wave : ℚ
  neck_outer_radius : ℚ
  neck_height : ℚ
  neck_wall_min : ℚ
  shade_form : String
  shade_height : ℚ
  shade_outer_radius : ℚ
  shade_wall : ℚ
  sleeve_height : ℚ
  shade_pattern : String
  shade_loft_bottom_sides : ℚ
  shade_loft_top_sides : ℚ
  shade_loft_top_scale : ℚ
  shade_loft_twist : ℚ
  tolerance : ℚ
  slot_count : ℚ
  slot_width : ℚ
  slot_depth : ℚ
  slot_margin : ℚ
  slot_variation : ℚ
  slot_wave_frequency : ℚ
  lattice_rows : ℚ
  lattice_columns : ℚ
  lattice_window_width : ℚ
  lattice_window_height : ℚ
  lattice_window_depth : ℚ
  lattice_margin : ℚ
  lattice_offset_ratio : ℚ
  lattice_twist_degrees : ℚ
  weave_strand_count : ℚ
  weave_turns : ℚ
  weave_pipe_radius : ℚ
  weave_steps : ℚ
  weave_margin : ℚ
  moire_strand_count : ℚ
  moire_turns_primary : ℚ
  moire_turns_secondary : ℚ
  moire_pipe_radius : ℚ
  moire_steps : ℚ
  moire_rings : ℚ
  moire_ring_radius : ℚ
  moire_margin : ℚ
  bubble_rows : ℚ
  bubble_columns : ℚ
  bubble_radius : ℚ
  bubble_margin : ℚ
  bubble_offset_ratio : ℚ
  bubble_radius_variation : ℚ
  bubble_twist : ℚ
  bubble_wave_frequency : ℚ
  blob_rows : ℚ
  blob_columns : ℚ
  blob_radius : ℚ
  blob_offset : ℚ
  blob_margin : ℚ
  blob_radius_variation : ℚ
  blob_twist : ℚ
  blob_mangle : ℚ
  blob_jitter : ℚ
  blob_wave_frequency : ℚ
  cord_diameter : ℚ
  bulb_diameter : ℚ
  port_clearance : ℚ

/-- The PARAMS default dictionary of the source. -/
def PARAMS : Params where
  base_type := "triangle"
  base_width := 76
  base_depth := 76
  base_height := 52
  triangle_side := 108
  vase_height := 84
  vase_base_radius := 44
  vase_mid_radius := 62
  vase_neck_radius := 26
  twist_height := 70
  twist_radius := 42
  twist_top_scale := 0.72
  twist_sides := 6
  twist_layers := 8
  twist_rotation := 95
  spiral_height := 78
  spiral_radius := 46
  spiral_top_scale := 0.66
  spiral_waves := 6
  spiral_wave_amp := 0.2
  spiral_layers := 10
  spiral_twist := 150
  spiral_points_per_wave := 12
  ripple_height := 72
  ripple_radius := 48
  ripple_top_scale := 0.68
  ripple_waves := 7
  ripple_wave_amp := 0.21
  ripple_layers := 10
  ripple_twist := 30
  ripple_points_per_wave := 12
  neck_outer_radius := 22
  neck_height := 14
  neck_wall_min := 2.6
  shade_form := "lofted"
  shade_height := 138
  shade_outer_radius := 52
  shade_wall := 2.6
  sleeve_height := 16
  shade_pattern := "blobtrude"
  shade_loft_bottom_sides := 3
  shade_loft_top_sides := 24
  shade_loft_top_scale := 1.3
  shade_loft_twist := 30
  tolerance := 0.45
  slot_count := 26
  slot_width := 5
  slot_depth := 10
  slot_margin := 12
  slot_variation := 0.3
  slot_wave_frequency := 2.2
  lattice_rows := 6
  lattice_columns := 30
  lattice_window_width := 7
  lattice_window_height := 18
  lattice_window_depth := 11
  lattice_margin := 12
  lattice_offset_ratio := 0.5
  lattice_twist_degrees := 10
  weave_strand_count := 8
  weave_turns := 1.4
  weave_pipe_radius := 3.1
  weave_steps := 70
  weave_margin := 12
  moire_strand_count := 9
  moire_turns_primary := 1.6
  moire_turns_secondary := 2.4
  moire_pipe_radius := 2.6
  moire_steps := 85
  moire_rings := 6
  moire_ring_radius := 2.2
  moire_margin := 10
  bubble_rows := 7
  bubble_columns := 24
  bubble_radius := 5.5
  bubble_margin := 10
  bubble_offset_ratio := 0.5
  bubble_radius_variation := 0.25
  bubble_twist := 10
  bubble_wave_frequency := 1.6
  blob_rows := 9
  blob_columns := 20
  blob_radius := 5
  blob_offset := 2.2
  blob_margin := 10
  blob_radius_variation := 0.35
  blob_twist := 18
  blob_mangle := 0.45
  blob_jitter := 1.2
  blob_wave_frequency := 1.7
  cord_diameter := 7
  bulb_diameter := 30
  port_clearance := 2.6

/-- The Normalizer: normalize_params of the source.  Mutation of the
parameter mapping in place is embedded as a functional update; the returned
pair carries the updated parameters and the computed port radius.  The
p.get(key, default) reads of the source only supply a default for an absent
key; every key is present here, so they read the field. -/
def normalize_params (p : Params) : Params × ℚ :=
  let port_radius := max p.cord_diameter p.bulb_diameter / 2 + p.port_clearance
  let min_neck_outer := port_radius + p.neck_wall_min
  let neck_outer_radius :=
    if p.neck_outer_radius < min_neck_outer then min_neck_outer else p.neck_outer_radius
  let min_shade_outer := neck_outer_radius + p.tolerance + p.shade_wall
  let shade_outer_radius :=
    if p.shade_outer_radius < min_shade_outer then min_shade_outer else p.shade_outer_radius
  let min_shade_height := p.neck_height + p.shade_wall * 2
  let shade_height :=
    if p.shade_height < min_shade_height then min_shade_height else p.shade_height
  let shade_loft_bottom_sides : ℤ := max 3 (pyInt p.shade_loft_bottom_sides)
  let shade_loft_top_sides : ℤ := max 3 (pyInt p.shade_loft_top_sides)
  let shade_loft_top_scale := clamp_range p.shade_loft_top_scale 0.5 1.8
  let sleeve_height :=
    if p.sleeve_height < p.neck_height then p.neck_height + 1 else p.sleeve_height
  let max_sleeve := shade_height - p.shade_wall * 2
  let sleeve_height := if sleeve_height > max_sleeve then max_sleeve else sleeve_height
  let twist_sides : ℤ := max 3 (pyInt p.twist_sides)
  let twist_layers : ℤ := max 2 (pyInt p.twist_layers)
  let spiral_waves : ℤ := max 2 (pyInt p.spiral_waves)
  let spiral_layers : ℤ := max 3 (pyInt p.spiral_layers)
  let spiral_points_per_wave : ℤ := max 6 (pyInt p.spiral_points_per_wave)
  let spiral_wave_amp := max 0.02 (min p.spiral_wave_amp 0.45)
  let ripple_waves : ℤ := max 2 (pyInt p.ripple_waves)
  let ripple_layers : ℤ := max 3 (pyInt p.ripple_layers)
  let ripple_points_per_wave : ℤ := max 6 (pyInt p.ripple_points_per_wave)
  let ripple_wave_amp := max 0.02 (min p.ripple_wave_amp 0.45)
  let weave_strand_count : ℤ := max 2 (pyInt p.weave_strand_count)
  let weave_steps : ℤ := max 12 (pyInt p.weave_steps)
  let moire_strand_count : ℤ := max 3 (pyInt p.moire_strand_count)
  let moire_steps : ℤ := max 16 (pyInt p.moire_steps)
  let moire_rings : ℤ := max 0 (pyInt p.moire_rings)
  let bubble_rows : ℤ := max 1 (pyInt p.bubble_rows)
  let bubble_columns : ℤ := max 6 (pyInt p.bubble_columns)
  let bubble_offset_ratio := max 0 (min p.bubble_offset_ratio 1)
  let bubble_radius_variation := max 0 (min p.bubble_radius_variation 0.8)
  let blob_rows : ℤ := max 1 (pyInt p.blob_rows)
  let blob_columns : ℤ := max 6 (pyInt p.blob_columns)
  let blob_radius := max 1 p.blob_radius
  let blob_offset := max 0.5 p.blob_offset
  let blob_margin := max 0 p.blob_margin
  let blob_radius_variation := max 0 (min p.blob_radius_variation 0.8)
  let blob_mangle := max 0 (min p.blob_mangle 1)
  let blob_jitter := max 0 p.blob_jitter
  ({ p with
      neck_outer_radius := neck_outer_radius
      shade_outer_radius := shade_outer_radius
      shade_height := shade_height
      shade_loft_bottom_sides := (shade_loft_bottom_sides : ℚ)
      shade_loft_top_sides := (shade_loft_top_sides : ℚ)
      shade_loft_top_scale := shade_loft_top_scale
      sleeve_height := sleeve_height
      twist_sides := (twist_sides : ℚ)
      twist_layers := (twist_layers : ℚ)
      spiral_waves := (spiral_waves : ℚ)
      spiral_layers := (spiral_layers : ℚ)
      spiral_points_per_wave := (spiral_points_per_wave : ℚ)
      spiral_wave_amp := spiral_wave_amp
      ripple_waves := (ripple_waves : ℚ)
      ripple_layers := (ripple_layers : ℚ)
      ripple_points_per_wave := (ripple_points_per_wave : ℚ)
      ripple_wave_amp := ripple_wave_amp
      weave_strand_count := (weave_strand_count : ℚ)
      weave_steps := (weave_steps : ℚ)
      moire_strand_count := (moire_strand_count : ℚ)
      moire_steps := (moire_steps : ℚ)
      moire_rings := (moire_rings : ℚ)
      bubble_rows := (bubble_rows : ℚ)
      bubble_columns := (bubble_columns : ℚ)
      bubble_offset_ratio := bubble_offset_ratio
      bubble_radius_variation := bubble_radius_variation
      blob_rows := (blob_rows : ℚ)
      blob_columns := (blob_columns : ℚ)
      blob_radius := blob_radius
      blob_offset := blob_offset
      blob_margin := blob_margin
      blob_radius_variation := blob_radius_variation
      blob_mangle := blob_mangle
      blob_jitter := blob_jitter }, port_radius)

/-- The sleeve inner radius used by create_lofted_shade (line 447 of the
source): neck_outer_radius plus tolerance. -/
def lofted_sleeve_inner_radius (p : Params) : ℚ :=
  p.neck_outer_radius + p.tolerance

/-- The sleeve inner radius used by create_shade (line 1000 of the source):
neck_outer_radius plus tolerance. -/
def shade_sleeve_inner_radius (p : Params) : ℚ :=
  p.neck_outer_radius + p.tolerance

/-- Early-return guard of add_slot_pattern: slot_count <= 0. -/
def slot_count_guard (p : Params) : Bool := pyInt p.slot_count ≤ 0

/-- Early-return guard of add_lattice_pattern: rows <= 0 or columns <= 0. -/
def lattice_count_guard (p : Params) : Bool :=
  pyInt p.lattice_rows ≤ 0 ∨ pyInt p.lattice_columns ≤ 0

/-- Early-return guard of add_weave_pattern: strands <= 0. -/
def weave_count_guard (p : Params) : Bool := pyInt p.weave_strand_count ≤ 0

/-- Early-return guard of add_moire_pattern: strands <= 0. -/
def moire_count_guard (p : Params) : Bool := pyInt p.moire_strand_count ≤ 0

/-- Early-return guard of add_bubble_pattern: rows <= 0 or columns <= 0. -/
def bubble_count_guard (p : Params) : Bool :=
  pyInt p.bubble_rows ≤ 0 ∨ pyInt p.bubble_columns ≤ 0

/-- Early-return guard of add_blobtrude_pattern: rows <= 0 or columns <= 0. -/
def blob_count_guard (p : Params) : Bool :=
  pyInt p.blob_rows ≤ 0 ∨ pyInt p.blob_columns ≤ 0

theorem le_raise (m x : ℚ) : m ≤ if x < m then m else x := by
  split_ifs with h
  · exact le_refl m
  · exact le_of_not_lt h

theorem raise_eq_of_le (m x : ℚ) (h : m ≤ x) : (if x < m then m else x) = x := by
  rw [if_neg (not_lt.mpr h)]

theorem pyInt_intCast (n : ℤ) : pyInt (n : ℚ) = n := by
  unfold pyInt
  split_ifs <;> simp

theorem np_port (p : Params) :
    (normalize_params p).2 = max p.cord_diameter p.bulb_diameter / 2 + p.port_clearance := rfl

theorem np_neck (p : Params) :
    (normalize_params p).1.neck_outer_radius =
      if p.neck_outer_radius < (normalize_params p).2 + p.neck_wall_min
        then (normalize_params p).2 + p.neck_wall_min
        else p.neck_outer_radius := rfl

theorem np_shade_outer (p : Params) :
    (normalize_params p).1.shade_outer_radius =
      if p.shade_outer_radius <
          (normalize_params p).1.neck_outer_radius + p.tolerance + p.shade_wall
        then (normalize_params p).1.neck_outer_radius + p.tolerance + p.shade_wall
        else p.shade_outer_radius := rfl

theorem np_shade_height (p : Params) :
    (normalize_params p).1.shade_height =
      if p.shade_height < p.neck_height + p.shade_wall * 2
        then p.neck_height + p.shade_wall * 2
        else p.shade_height := rfl

theorem np_sleeve (p : Params) :
    (normalize_params p).1.sleeve_height =
      if (if p.sleeve_height < p.neck_height then p.neck_height + 1 else p.sleeve_height) >
          (normalize_params p).1.shade_height - p.shade_wall * 2
        then (normalize_params p).1.shade_height - p.shade_wall * 2
        else if p.sleeve_height < p.neck_height then p.neck_height + 1
        else p.sleeve_height := rfl

theorem np_neck_ge (p : Params) :
    (normalize_params p).2 + p.neck_wall_min ≤ (normalize_params p).1.neck_outer_radius := by
  rw [np_neck]; exact le_raise _ _

theorem np_shade_height_ge (p : Params) :
    p.neck_height + p.shade_wall * 2 ≤ (normalize_params p).1.shade_height := by
  rw [np_shade_height]; exact le_raise _ _

theorem np_sleeve_lb (p : Params) :
    p.neck_height ≤ (normalize_params p).1.sleeve_height := by
  have hsh := np_shade_height_ge p
  rw [np_sleeve]
  split_ifs with h1 h2 h2 <;> linarith

theorem np_sleeve_ub (p : Params) :
    (normalize_params p).1.sleeve_height ≤
      (normalize_params p).1.shade_height - p.shade_wall * 2 := by
  have hsh := np_shade_height_ge p
  rw [np_sleeve]
  split_ifs with h1 h2 h2 <;> linarith

theorem np_neck_height (p : Params) : (normalize_params p).1.neck_height = p.neck_height := rfl
theorem np_shade_wall (p : Params) : (normalize_params p).1.shade_wall = p.shade_wall := rfl
theorem np_tolerance (p : Params) : (normalize_params p).1.tolerance = p.tolerance := rfl
theorem np_neck_wall_min (p : Params) :
    (normalize_params p).1.neck_wall_min = p.neck_wall_min := rfl
theorem np_slot_count (p : Params) : (normalize_params p).1.slot_count = p.slot_count := rfl
theorem np_slot_variation (p : Params) :
    (normalize_params p).1.slot_variation = p.slot_variation := rfl
theorem np_lattice_rows (p : Params) :
    (normalize_params p).1.lattice_rows = p.lattice_rows := rfl
theorem np_lattice_columns (p : Params) :
    (normalize_params p).1.lattice_columns = p.lattice_columns := rfl
theorem np_lattice_offset (p : Params) :
    (normalize_params p).1.lattice_offset_ratio = p.lattice_offset_ratio := rfl
theorem np_shade_pattern (p : Params) :
    (normalize_params p).1.shade_pattern = p.shade_pattern := rfl
theorem np_weave_strand (p : Params) :
    (normalize_params p).1.weave_strand_count =
      ((max 2 (pyInt p.weave_strand_count) : ℤ) : ℚ) := rfl
theorem np_moire_strand (p : Params) :
    (normalize_params p).1.moire_strand_count =
      ((max 3 (pyInt p.moire_strand_count) : ℤ) : ℚ) := rfl
theorem np_bubble_rows (p : Params) :
    (normalize_params p).1.bubble_rows = ((max 1 (pyInt p.bubble_rows) : ℤ) : ℚ) := rfl
theorem np_bubble_columns (p : Params) :
    (normalize_params p).1.bubble_columns = ((max 6 (pyInt p.bubble_columns) : ℤ) : ℚ) := rfl
theorem np_bubble_offset (p : Params) :
    (normalize_params p).1.bubble_offset_ratio =
      max 0 (min p.bubble_offset_ratio 1) := rfl
theorem np_spiral_wave_amp (p : Params) :
    (normalize_params p).1.spiral_wave_amp =
      max 0.02 (min p.spiral_wave_amp 0.45) := rfl

theorem np_shade_outer_ge (p : Params) :
    (normalize_params p).1.neck_outer_radius + p.tolerance + p.shade_wall ≤
      (normalize_params p).1.shade_outer_radius := by
  rw [np_shade_outer]; exact le_raise _ _

theorem np_loft_bottom (p : Params) :
    (normalize_params p).1.shade_loft_bottom_sides =
      ((max 3 (pyInt p.shade_loft_bottom_sides) : ℤ) : ℚ) := rfl
theorem np_loft_top (p : Params) :
    (normalize_params p).1.shade_loft_top_sides =
      ((max 3 (pyInt p.shade_loft_top_sides) : ℤ) : ℚ) := rfl
theorem np_loft_scale (p : Params) :
    (normalize_params p).1.shade_loft_top_scale =
      clamp_range p.shade_loft_top_scale 0.5 1.8 := rfl
theorem np_twist_sides (p : Params) :
    (normalize_params p).1.twist_sides = ((max 3 (pyInt p.twist_sides) : ℤ) : ℚ) := rfl
theorem np_twist_layers (p : Params) :
    (normalize_params p).1.twist_layers = ((max 2 (pyInt p.twist_layers) : ℤ) : ℚ) := rfl
theorem np_spiral_waves (p : Params) :
    (normalize_params p).1.spiral_waves = ((max 2 (pyInt p.spiral_waves) : ℤ) : ℚ) := rfl
theorem np_spiral_layers (p : Params) :
    (normalize_params p).1.spiral_layers = ((max 3 (pyInt p.spiral_layers) : ℤ) : ℚ) := rfl
theorem np_spiral_ppw (p : Params) :
    (normalize_params p).1.spiral_points_per_wave =
      ((max 6 (pyInt p.spiral_points_per_wave) : ℤ) : ℚ) := rfl
theorem np_ripple_waves (p : Params) :
    (normalize_params p).1.ripple_waves = ((max 2 (pyInt p.ripple_waves) : ℤ) : ℚ) := rfl
theorem np_ripple_layers (p : Params) :
    (normalize_params p).1.ripple_layers = ((max 3 (pyInt p.ripple_layers) : ℤ) : ℚ) := rfl
theorem np_ripple_ppw (p : Params) :
    (normalize_params p).1.ripple_points_per_wave =
      ((max 6 (pyInt p.ripple_points_per_wave) : ℤ) : ℚ) := rfl
theorem np_ripple_amp (p : Params) :
    (normalize_params p).1.ripple_wave_amp = max 0.02 (min p.ripple_wave_amp 0.45) := rfl
theorem np_weave_steps (p : Params) :
    (normalize_params p).1.weave_steps = ((max 12 (pyInt p.weave_steps) : ℤ) : ℚ) := rfl
theorem np_moire_steps (p : Params) :
    (normalize_params p).1.moire_steps = ((max 16 (pyInt p.moire_steps) : ℤ) : ℚ) := rfl
theorem np_moire_rings (p : Params) :
    (normalize_params p).1.moire_rings = ((max 0 (pyInt p.moire_rings) : ℤ) : ℚ) := rfl
theorem np_blob_rows (p : Params) :
    (normalize_params p).1.blob_rows = ((max 1 (pyInt p.blob_rows) : ℤ) : ℚ) := rfl
theorem np_blob_columns (p : Params) :
    (normalize_params p).1.blob_columns = ((max 6 (pyInt p.blob_columns) : ℤ) : ℚ) := rfl
theorem np_blob_radius (p : Params) :
    (normalize_params p).1.blob_radius = max 1 p.blob_radius := rfl
theorem np_blob_offset (p : Params) :
    (normalize_params p).1.blob_offset = max 0.5 p.blob_offset := rfl
theorem np_blob_margin (p : Params) :
    (normalize_params p).1.blob_margin = max 0 p.blob_margin := rfl
theorem np_blob_rad_var (p : Params) :
    (normalize_params p).1.blob_radius_variation =
      max 0 (min p.blob_radius_variation 0.8) := rfl
theorem np_bubble_rad_var (p : Params) :
    (normalize_params p).1.bubble_radius_variation =
      max 0 (min p.bubble_radius_variation 0.8) := rfl
theorem np_blob_mangle (p : Params) :
    (normalize_params p).1.blob_mangle = max 0 (min p.blob_mangle 1) := rfl
theorem np_blob_jitter (p : Params) :
    (normalize_params p).1.blob_jitter = max 0 p.blob_jitter := rfl

theorem maxInt_fix (a : ℤ) (x : ℚ) :
    ((max a (pyInt ((max a (pyInt x) : ℤ) : ℚ)) : ℤ) : ℚ) = ((max a (pyInt x) : ℤ) : ℚ) := by
  rw [pyInt_intCast, ← max_assoc, max_self]

theorem clamp2_fix (lo hi x : ℚ) (h : lo ≤ hi) :
    max lo (min (max lo (min x hi)) hi) = max lo (min x hi) := by
  have h1 : max lo (min x hi) ≤ hi := max_le h (min_le_right _ _)
  rw [min_eq_left h1, ← max_assoc, max_self]

theorem maxq_fix (c x : ℚ) : max c (max c x) = max c x := by
  rw [← max_assoc, max_self]

theorem clamp_range_fix (x lo hi : ℚ) (h : lo ≤ hi) :
    clamp_range (clamp_range x lo hi) lo hi = clamp_range x lo hi := by
  unfold clamp_range
  split_ifs <;> linarith

/-- A parameter set on which every clamp of normalize_params is already a
fixed point is fixed by normalize_params. -/
theorem normalize_fixed (q : Params)
    (h1 : max q.cord_diameter q.bulb_diameter / 2 + q.port_clearance + q.neck_wall_min ≤
      q.neck_outer_radius)
    (h2 : q.neck_outer_radius + q.tolerance + q.shade_wall ≤ q.shade_outer_radius)
    (h3 : q.neck_height + q.shade_wall * 2 ≤ q.shade_height)
    (h4 : q.neck_height ≤ q.sleeve_height)
    (h5 : q.sleeve_height ≤ q.shade_height - q.shade_wall * 2)
    (e4 : ((max 3 (pyInt q.shade_loft_bottom_sides) : ℤ) : ℚ) = q.shade_loft_bottom_sides)
    (e5 : ((max 3 (pyInt q.shade_loft_top_sides) : ℤ) : ℚ) = q.shade_loft_top_sides)
    (e6 : clamp_range q.shade_loft_top_scale 0.5 1.8 = q.shade_loft_top_scale)
    (e7 : ((max 3 (pyInt q.twist_sides) : ℤ) : ℚ) = q.twist_sides)
    (e8 : ((max 2 (pyInt q.twist_layers) : ℤ) : ℚ) = q.twist_layers)
    (e9 : ((max 2 (pyInt q.spiral_waves) : ℤ) : ℚ) = q.spiral_waves)
    (e10 : ((max 3 (pyInt q.spiral_layers) : ℤ) : ℚ) = q.spiral_layers)
    (e11 : ((max 6 (pyInt q.spiral_points_per_wave) : ℤ) : ℚ) = q.spiral_points_per_wave)
    (e12 : max 0.02 (min q.spiral_wave_amp 0.45) = q.spiral_wave_amp)
    (e13 : ((max 2 (pyInt q.ripple_waves) : ℤ) : ℚ) = q.ripple_waves)
    (e14 : ((max 3 (pyInt q.ripple_layers) : ℤ) : ℚ) = q.ripple_layers)
    (e15 : ((max 6 (pyInt q.ripple_points_per_wave) : ℤ) : ℚ) = q.ripple_points_per_wave)
    (e16 : max 0.02 (min q.ripple_wave_amp 0.45) = q.ripple_wave_amp)
    (e17 : ((max 2 (pyInt q.weave_strand_count) : ℤ) : ℚ) = q.weave_strand_count)
    (e18 : ((max 12 (pyInt q.weave_steps) : ℤ) : ℚ) = q.weave_steps)
    (e19 : ((max 3 (pyInt q.moire_strand_count) : ℤ) : ℚ) = q.moire_strand_count)
    (e20 : ((max 16 (pyInt q.moire_steps) : ℤ) : ℚ) = q.moire_steps)
    (e21 : ((max 0 (pyInt q.moire_rings) : ℤ) : ℚ) = q.moire_rings)
    (e22 : ((max 1 (pyInt q.bubble_rows) : ℤ) : ℚ) = q.bubble_rows)
    (e23 : ((max 6 (pyInt q.bubble_columns) : ℤ) : ℚ) = q.bubble_columns)
    (e24 : max 0 (min q.bubble_offset_ratio 1) = q.bubble_offset_ratio)
    (e25 : max 0 (min q.bubble_radius_variation 0.8) = q.bubble_radius_variation)
    (e26 : ((max 1 (pyInt q.blob_rows) : ℤ) : ℚ) = q.blob_rows)
    (e27 : ((max 6 (pyInt q.blob_columns) : ℤ) : ℚ) = q.blob_columns)
    (e28 : max 1 q.blob_radius = q.blob_radius)
    (e29 : max 0.5 q.blob_offset = q.blob_offset)
    (e30 : max 0 q.blob_margin = q.blob_margin)
    (e31 : max 0 (min q.blob_radius_variation 0.8) = q.blob_radius_variation)
    (e32 : max 0 (min q.blob_mangle 1) = q.blob_mangle)
    (e33 : max 0 q.blob_jitter = q.blob_jitter) :
    normalize_params q =
      (q, max q.cord_diameter q.bulb_diameter / 2 + q.port_clearance) := by
  simp only [normalize_params]
  rw [if_neg (not_lt.mpr h1), if_neg (not_lt.mpr h2), if_neg (not_lt.mpr h3),
    if_neg (not_lt.mpr h4), if_neg (not_lt.mpr h5)]
  rw [e4, e5, e6, e7, e8, e9, e10, e11, e12, e13, e14, e15, e16, e17, e18, e19,
    e20, e21, e22, e23, e24, e25, e26, e27, e28, e29, e30, e31, e32, e33]

/-- C6: normalize_params is idempotent: a second pass on the normalized
mapping changes no parameter value and returns the same port radius. -/
theorem normalize_params_idempotent (p : Params) :
    normalize_params (normalize_params p).1 = normalize_params p := by
  rw [normalize_fixed (normalize_params p).1
    (np_neck_ge p) (np_shade_outer_ge p) (np_shade_height_ge p)
    (np_sleeve_lb p) (np_sleeve_ub p)
    (by rw [np_loft_bottom]; exact maxInt_fix 3 _)
    (by rw [np_loft_top]; exact maxInt_fix 3 _)
    (by rw [np_loft_scale]; exact clamp_range_fix _ _ _ (by norm_num))
    (by rw [np_twist_sides]; exact maxInt_fix 3 _)
    (by rw [np_twist_layers]; exact maxInt_fix 2 _)
    (by rw [np_spiral_waves]; exact maxInt_fix 2 _)
    (by rw [np_spiral_layers]; exact maxInt_fix 3 _)
    (by rw [np_spiral_ppw]; exact maxInt_fix 6 _)
    (by rw [np_spiral_wave_amp]; exact clamp2_fix _ _ _ (by norm_num))
    (by rw [np_ripple_waves]; exact maxInt_fix 2 _)
    (by rw [np_ripple_layers]; exact maxInt_fix 3 _)
    (by rw [np_ripple_ppw]; exact maxInt_fix 6 _)
    (by rw [np_ripple_amp]; exact clamp2_fix _ _ _ (by norm_num))
    (by rw [np_weave_strand]; exact maxInt_fix 2 _)
    (by rw [np_weave_steps]; exact maxInt_fix 12 _)
    (by rw [np_moire_strand]; exact maxInt_fix 3 _)
    (by rw [np_moire_steps]; exact maxInt_fix 16 _)
    (by rw [np_moire_rings]; exact maxInt_fix 0 _)
    (by rw [np_bubble_rows]; exact maxInt_fix 1 _)
    (by rw [np_bubble_columns]; exact maxInt_fix 6 _)
    (by rw [np_bubble_offset]; exact clamp2_fix _ _ _ (by norm_num))
    (by rw [np_bubble_rad_var]; exact clamp2_fix _ _ _ (by norm_num))
    (by rw [np_blob_rows]; exact maxInt_fix 1 _)
    (by rw [np_blob_columns]; exact maxInt_fix 6 _)
    (by rw [np_blob_radius]; exact maxq_fix _ _)
    (by rw [np_blob_offset]; exact maxq_fix _ _)
    (by rw [np_blob_margin]; exact maxq_fix _ _)
    (by rw [np_blob_rad_var]; exact clamp2_fix _ _ _ (by norm_num))
    (by rw [np_blob_mangle]; exact clamp2_fix _ _ _ (by norm_num))
    (by rw [np_blob_jitter]; exact maxq_fix _ _)]
  show ((normalize_params p).1, (normalize_params p).2) = normalize_params p
  exact Prod.mk.eta

/-- C1: For every parameter set, the sleeve inner radius used to build the
shade, in both the cylindrical and the lofted shade form, exceeds the
normalized neck_outer_radius by exactly the tolerance. -/
theorem sleeve_fit_invariant (p : Params) :
    lofted_sleeve_inner_radius (normalize_params p).1 -
        (normalize_params p).1.neck_outer_radius = (normalize_params p).1.tolerance ∧
    shade_sleeve_inner_radius (normalize_params p).1 -
        (normalize_params p).1.neck_outer_radius = (normalize_params p).1.tolerance := by
  unfold lofted_sleeve_inner_radius shade_sleeve_inner_radius
  constructor <;> ring

/-- C2: After normalize_params, neck_height <= sleeve_height <=
shade_height - 2*shade_wall holds for every input, including a
pathologically small initial shade_height: the shade-height raise happens
before the sleeve clamps, so the ceiling never drops below the floor
invariant. -/
theorem sleeve_height_invariant (p : Params) :
    (normalize_params p).1.neck_height ≤ (normalize_params p).1.sleeve_height ∧
    (normalize_params p).1.sleeve_height ≤
      (normalize_params p).1.shade_height - 2 * (normalize_params p).1.shade_wall := by
  have h1 := np_sleeve_lb p
  have h2 := np_sleeve_ub p
  rw [np_neck_height, np_shade_wall]
  exact ⟨h1, by linarith⟩

/-- C3: After normalize_params, port_radius <= neck_outer_radius -
neck_wall_min, where port_radius is the returned value. -/
theorem port_clearance_invariant (p : Params) :
    (normalize_params p).2 ≤
      (normalize_params p).1.neck_outer_radius - (normalize_params p).1.neck_wall_min := by
  have h := np_neck_ge p
  rw [np_neck_wall_min]
  linarith

/-- C4 counterexample: normalize_params leaves slot_count and
slot_variation untouched; a parameter set with slot_count = 5/2 (not an
integer, denominator 2) and slot_variation = 5 (far outside any unit
range) keeps both values verbatim, so normalize_params does not coerce
every count parameter to an integer nor clamp every ratio parameter. -/
theorem normalize_clamps_counterexample :
    ((normalize_params { PARAMS with
        slot_count := 5/2, slot_variation := 5 }).1.slot_count).den = 2 ∧
    (normalize_params { PARAMS with
        slot_count := 5/2, slot_variation := 5 }).1.slot_variation = 5 := by
  rw [np_slot_count, np_slot_variation]
  norm_num [PARAMS]

theorem count_clamped (a : ℤ) (x : ℚ) :
    ((a : ℚ) ≤ ((max a (pyInt x) : ℤ) : ℚ)) ∧ (((max a (pyInt x) : ℤ) : ℚ)).den = 1 :=
  ⟨by exact_mod_cast le_max_left a (pyInt x), Rat.den_intCast _⟩

theorem ratio_clamped (lo hi x : ℚ) (h : lo ≤ hi) :
    lo ≤ max lo (min x hi) ∧ max lo (min x hi) ≤ hi :=
  ⟨le_max_left _ _, max_le h (min_le_right _ _)⟩

theorem clamp_range_mem (x lo hi : ℚ) (h : lo ≤ hi) :
    lo ≤ clamp_range x lo hi ∧ clamp_range x lo hi ≤ hi := by
  unfold clamp_range
  constructor <;> (split_ifs <;> linarith)

/-- C4 amended: normalize_params coerces every count parameter it handles
(shade_loft_bottom_sides, shade_loft_top_sides, twist_sides, twist_layers,
spiral_waves, spiral_layers, spiral_points_per_wave, ripple_waves,
ripple_layers, ripple_points_per_wave, weave_strand_count, weave_steps,
moire_strand_count, moire_steps, moire_rings, bubble_rows, bubble_columns,
blob_rows, blob_columns) to an integer at or above its minimum, and clamps
every ratio parameter it handles (spiral_wave_amp, ripple_wave_amp,
shade_loft_top_scale, bubble_offset_ratio, bubble_radius_variation,
blob_radius_variation, blob_mangle) into its range, but it leaves the slot
and lattice parameters (slot_count, slot_variation, lattice_rows,
lattice_columns, lattice_offset_ratio) untouched; those are only
int()-cast with zero-count early returns inside add_slot_pattern and
add_lattice_pattern. -/
theorem normalize_clamps_handled_params (p : Params) :
    ((3 : ℚ) ≤ (normalize_params p).1.shade_loft_bottom_sides ∧ ((normalize_params p).1.shade_loft_bottom_sides).den = 1) ∧
    ((3 : ℚ) ≤ (normalize_params p).1.shade_loft_top_sides ∧ ((normalize_params p).1.shade_loft_top_sides).den = 1) ∧
    ((3 : ℚ) ≤ (normalize_params p).1.twist_sides ∧ ((normalize_params p).1.twist_sides).den = 1) ∧
    ((2 : ℚ) ≤ (normalize_params p).1.twist_layers ∧ ((normalize_params p).1.twist_layers).den = 1) ∧
    ((2 : ℚ) ≤ (normalize_params p).1.spiral_waves ∧ ((normalize_params p).1.spiral_waves).den = 1) ∧
    ((3 : ℚ) ≤ (normalize_params p).1.spiral_layers ∧ ((normalize_params p).1.spiral_layers).den = 1) ∧
    ((6 : ℚ) ≤ (normalize_params p).1.spiral_points_per_wave ∧ ((normalize_params p).1.spiral_points_per_wave).den = 1) ∧
    ((2 : ℚ) ≤ (normalize_params p).1.ripple_waves ∧ ((normalize_params p).1.ripple_waves).den = 1) ∧
    ((3 : ℚ) ≤ (normalize_params p).1.ripple_layers ∧ ((normalize_params p).1.ripple_layers).den = 1) ∧
    ((6 : ℚ) ≤ (normalize_params p).1.ripple_points_per_wave ∧ ((normalize_params p).1.ripple_points_per_wave).den = 1) ∧
    ((2 : ℚ) ≤ (normalize_params p).1.weave_strand_count ∧ ((normalize_params p).1.weave_strand_count).den = 1) ∧
    ((12 : ℚ) ≤ (normalize_params p).1.weave_steps ∧ ((normalize_params p).1.weave_steps).den = 1) ∧
    ((3 : ℚ) ≤ (normalize_params p).1.moire_strand_count ∧ ((normalize_params p).1.moire_strand_count).den = 1) ∧
    ((16 : ℚ) ≤ (normalize_params p).1.moire_steps ∧ ((normalize_params p).1.moire_steps).den = 1) ∧
    ((0 : ℚ) ≤ (normalize_params p).1.moire_rings ∧ ((normalize_params p).1.moire_rings).den = 1) ∧
    ((1 : ℚ) ≤ (normalize_params p).1.bubble_rows ∧ ((normalize_params p).1.bubble_rows).den = 1) ∧
    ((6 : ℚ) ≤ (normalize_params p).1.bubble_columns ∧ ((normalize_params p).1.bubble_columns).den = 1) ∧
    ((1 : ℚ) ≤ (normalize_params p).1.blob_rows ∧ ((normalize_params p).1.blob_rows).den = 1) ∧
    ((6 : ℚ) ≤ (normalize_params p).1.blob_columns ∧ ((normalize_params p).1.blob_columns).den = 1) ∧
    ((0.02 : ℚ) ≤ (normalize_params p).1.spiral_wave_amp ∧ (normalize_params p).1.spiral_wave_amp ≤ 0.45) ∧
    ((0.02 : ℚ) ≤ (normalize_params p).1.ripple_wave_amp ∧ (normalize_params p).1.ripple_wave_amp ≤ 0.45) ∧
    ((0.5 : ℚ) ≤ (normalize_params p).1.shade_loft_top_scale ∧ (normalize_params p).1.shade_loft_top_scale ≤ 1.8) ∧
    ((0 : ℚ) ≤ (normalize_params p).1.bubble_offset_ratio ∧ (normalize_params p).1.bubble_offset_ratio ≤ 1) ∧
    ((0 : ℚ) ≤ (normalize_params p).1.bubble_radius_variation ∧ (normalize_params p).1.bubble_radius_variation ≤ 0.8) ∧
    ((0 : ℚ) ≤ (normalize_params p).1.blob_radius_variation ∧ (normalize_params p).1.blob_radius_variation ≤ 0.8) ∧
    ((0 : ℚ) ≤ (normalize_params p).1.blob_mangle ∧ (normalize_params p).1.blob_mangle ≤ 1) ∧
    (normalize_params p).1.slot_count = p.slot_count ∧
    (normalize_params p).1.slot_variation = p.slot_variation ∧
    (normalize_params p).1.lattice_rows = p.lattice_rows ∧
    (normalize_params p).1.lattice_columns = p.lattice_columns ∧
    (normalize_params p).1.lattice_offset_ratio = p.lattice_offset_ratio := by
  refine ⟨?_, ?_, ?_, ?_, ?_, ?_, ?_, ?_, ?_, ?_, ?_, ?_, ?_, ?_, ?_, ?_, ?_, ?_, ?_, ?_, ?_, ?_, ?_, ?_, ?_, ?_, rfl, rfl, rfl, rfl, rfl⟩
  · rw [np_loft_bottom]
    exact count_clamped 3 _
  · rw [np_loft_top]
    exact count_clamped 3 _
  · rw [np_twist_sides]
    exact count_clamped 3 _
  · rw [np_twist_layers]
    exact count_clamped 2 _
  · rw [np_spiral_waves]
    exact count_clamped 2 _
  · rw [np_spiral_layers]
    exact count_clamped 3 _
  · rw [np_spiral_ppw]
    exact count_clamped 6 _
  · rw [np_ripple_waves]
    exact count_clamped 2 _
  · rw [np_ripple_layers]
    exact count_clamped 3 _
  · rw [np_ripple_ppw]
    exact count_clamped 6 _
  · rw [np_weave_strand]
    exact count_clamped 2 _
  · rw [np_weave_steps]
    exact count_clamped 12 _
  · rw [np_moire_strand]
    exact count_clamped 3 _
  · rw [np_moire_steps]
    exact count_clamped 16 _
  · rw [np_moire_rings]
    exact count_clamped 0 _
  · rw [np_bubble_rows]
    exact count_clamped 1 _
  · rw [np_bubble_columns]
    exact count_clamped 6 _
  · rw [np_blob_rows]
    exact count_clamped 1 _
  · rw [np_blob_columns]
    exact count_clamped 6 _
  · rw [np_spiral_wave_amp]
    exact ratio_clamped _ _ _ (by norm_num)
  · rw [np_ripple_amp]
    exact ratio_clamped _ _ _ (by norm_num)
  · rw [np_loft_scale]
    exact clamp_range_mem _ _ _ (by norm_num)
  · rw [np_bubble_offset]
    exact ratio_clamped _ _ _ (by norm_num)
  · rw [np_bubble_rad_var]
    exact ratio_clamped _ _ _ (by norm_num)
  · rw [np_blob_rad_var]
    exact ratio_clamped _ _ _ (by norm_num)
  · rw [np_blob_mangle]
    exact ratio_clamped _ _ _ (by norm_num)

/-- C9: After normalize_params, weave_strand_count >= 2,
moire_strand_count >= 3, bubble_rows >= 1 and bubble_columns >= 6, and the
zero-or-negative-count early-return guards of add_weave_pattern,
add_moire_pattern and add_bubble_pattern all evaluate to false, so those
branches are unreachable from the pipeline. -/
theorem zero_count_guards_unreachable (p : Params) :
    (2:ℚ) ≤ (normalize_params p).1.weave_strand_count ∧
    (3:ℚ) ≤ (normalize_params p).1.moire_strand_count ∧
    (1:ℚ) ≤ (normalize_params p).1.bubble_rows ∧
    (6:ℚ) ≤ (normalize_params p).1.bubble_columns ∧
    weave_count_guard (normalize_params p).1 = false ∧
    moire_count_guard (normalize_params p).1 = false ∧
    bubble_count_guard (normalize_params p).1 = false := by
  refine ⟨?_, ?_, ?_, ?_, ?_, ?_, ?_⟩
  · rw [np_weave_strand]
    exact_mod_cast Int.cast_le.mpr (le_max_left 2 _)
  · rw [np_moire_strand]
    exact_mod_cast Int.cast_le.mpr (le_max_left 3 _)
  · rw [np_bubble_rows]
    exact_mod_cast Int.cast_le.mpr (le_max_left 1 _)
  · rw [np_bubble_columns]
    exact_mod_cast Int.cast_le.mpr (le_max_left 6 _)
  · simp only [weave_count_guard, np_weave_strand, pyInt_intCast,
      decide_eq_false_iff_not, not_le]
    exact lt_of_lt_of_le (by norm_num) (le_max_left 2 _)
  · simp only [moire_count_guard, np_moire_strand, pyInt_intCast,
      decide_eq_false_iff_not, not_le]
    exact lt_of_lt_of_le (by norm_num) (le_max_left 3 _)
  · simp only [bubble_count_guard, np_bubble_rows, np_bubble_columns, pyInt_intCast,
      decide_eq_false_iff_not, not_le, not_or]
    constructor
    · exact lt_of_lt_of_le (by norm_num) (le_max_left 1 _)
    · exact lt_of_lt_of_le (by norm_num) (le_max_left 6 _)

noncomputable section

open Classical

/-- A point or vector of the kernel document, as an exact real triple. -/
def Point : Type := ℝ × ℝ × ℝ

/-- Python math.radians of a degree value. -/
def radiansOf (d : ℚ) : ℝ := (d : ℝ) * Real.pi / 180

/-- Coercion of a rational coordinate triple to a kernel point. -/
def ptQ (a b c : ℚ) : Point := ((a : ℝ), (b : ℝ), (c : ℝ))

/-- Kernel-resident curves, as a free term algebra over the primitive
curve constructors the program calls (rs.AddPolyline, rs.AddCircle,
rs.AddLine); primitive creation always succeeds in this model. -/
inductive Curve where
  | polyline (pts : List Point)
  | circle (center : Point) (radius : ℝ)
  | line (a b : Point)

/-- Kernel-resident solids and surfaces, as a free term algebra over the
primitive constructors and kernel operations the program calls.  Boolean
union and difference are recorded structurally, so two solids are the same
geometry in this model exactly when they were built by the same operations. -/
inductive Solid where
  | box (corners : List Point)
  | cylinder (base : Point) (height radius : ℝ)
  | sphere (center : Point) (radius : ℝ)
  | torus (center : Point) (major minor : ℝ)
  | planarSrf (c : Curve)
  | extrude (srf : Solid) (path : Curve)
  | loft (curves : List Curve)
  | capped (s : Solid)
  | pipe (c : Curve) (radius : ℝ)
  | rotatedZ (s : Solid) (angleDeg : ℝ)
  | union (parts : List Solid)
  | diff (target : Solid) (cutters : List Solid)

/-- Number of wrapping operations above the principal subterm of a solid
term; used to show a boolean difference never returns its target term. -/
def Solid.depth : Solid → ℕ
  | .extrude s _ => s.depth + 1
  | .capped s => s.depth + 1
  | .rotatedZ s _ => s.depth + 1
  | .diff t _ => t.depth + 1
  | _ => 0

theorem diff_ne_target (t : Solid) (cs : List Solid) : Solid.diff t cs ≠ t := by
  intro h
  have hd := congrArg Solid.depth h
  simp only [Solid.depth] at hd
  omega

/-- cap_if_possible of the source: capping always succeeds in this model. -/
def cap_if_possible (s : Solid) : Solid := Solid.capped s

/-- safe_boolean_union of the source: drop null operands, return null for
an empty list, else the union. -/
def safe_boolean_union (objs : List (Option Solid)) : Option Solid :=
  match objs.reduceOption with
  | [] => none
  | l => some (Solid.union l)

/-- safe_boolean_diff of the source: null target propagates, an empty
cutter list returns the target unchanged, else the difference.  The
truthiness filter on the cutter list is the identity here because
primitive creation always succeeds. -/
def safe_boolean_diff (target : Option Solid) (cutters : List Solid) : Option Solid :=
  match target with
  | none => none
  | some t =>
    match cutters with
    | [] => some t
    | cs => some (Solid.diff t cs)

/-- Vertex list of add_polygon_curve of the source: max(3, int(sides))
vertices evenly spaced on a circle of the given radius at height z, first
vertex rotated by rotation_degrees from +X, then the first point appended
again to close the polyline. -/
def polygon_pts (radius sides z rotation_degrees : ℚ) : List Point :=
  let sides' := max 3 (pyInt sides)
  let pts := (List.range sides'.toNat).map fun (i : ℕ) =>
    let angle := radiansOf (rotation_degrees + (i : ℚ) * (360 / (sides' : ℚ)))
    (((radius : ℝ) * Real.cos angle, (radius : ℝ) * Real.sin angle, (z : ℝ)) : Point)
  pts ++ pts.take 1

/-- add_polygon_curve of the source. -/
def add_polygon_curve (radius sides z rotation_degrees : ℚ) : Curve :=
  Curve.polyline (polygon_pts radius sides z rotation_degrees)

/-- Vertex list of add_wave_curve of the source. -/
def wave_pts (radius waves : ℚ) (amplitude : ℝ) (points_per_wave z rotation_degrees : ℚ) :
    List Point :=
  let waves' := max 1 (pyInt waves)
  let ppw := max 6 (pyInt points_per_wave)
  let total := waves' * ppw
  let rot := radiansOf rotation_degrees
  let pts := (List.range total.toNat).map fun (i : ℕ) =>
    let angle : ℝ := 2 * Real.pi * ((i : ℝ) / (total : ℝ))
    let wave : ℝ := 1 + amplitude * Real.sin ((waves' : ℝ) * angle)
    let r := (radius : ℝ) * wave
    ((r * Real.cos (angle + rot), r * Real.sin (angle + rot), (z : ℝ)) : Point)
  pts ++ pts.take 1

/-- add_wave_curve of the source. -/
def add_wave_curve (radius waves : ℚ) (amplitude : ℝ)
    (points_per_wave z rotation_degrees : ℚ) : Curve :=
  Curve.polyline (wave_pts radius waves amplitude points_per_wave z rotation_degrees)

/-- add_box_centered of the source. -/
def add_box_centered (width depth height base_z : ℚ) : Solid :=
  let x := width / 2
  let y := depth / 2
  Solid.box [ptQ (-x) (-y) base_z, ptQ x (-y) base_z, ptQ x y base_z, ptQ (-x) y base_z,
    ptQ (-x) (-y) (base_z + height), ptQ x (-y) (base_z + height),
    ptQ x y (base_z + height), ptQ (-x) y (base_z + height)]

/-- add_triangle_prism of the source. -/
def add_triangle_prism (side height base_z : ℚ) : Solid :=
  let r := (side : ℝ) / Real.sqrt 3
  let pts := (List.range 3).map fun (i : ℕ) =>
    let angle := radiansOf (90 + (i : ℚ) * 120)
    ((r * Real.cos angle, r * Real.sin angle, (base_z : ℝ)) : Point)
  let poly := Curve.polyline (pts ++ pts.take 1)
  let base := Solid.planarSrf poly
  let path := Curve.line (ptQ 0 0 base_z) (ptQ 0 0 (base_z + height))
  cap_if_possible (Solid.extrude base path)

/-- add_vase of the source. -/
def add_vase (height base_radius mid_radius neck_radius : ℚ) : Solid :=
  let circles := [Curve.circle (ptQ 0 0 0) (base_radius : ℝ),
    Curve.circle (ptQ 0 0 (height * 0.35)) (mid_radius : ℝ),
    Curve.circle (ptQ 0 0 (height * 0.7)) (neck_radius : ℝ),
    Curve.circle (ptQ 0 0 height) ((neck_radius * 1.05 : ℚ) : ℝ)]
  cap_if_possible (Solid.loft circles)

/-- add_twisted_base of the source. -/
def add_twisted_base (height radius top_scale sides layers rotation_degrees : ℚ) :
    Option Solid :=
  let layers' := max 2 (pyInt layers)
  let curves := (List.range (layers'.toNat + 1)).map fun (i : ℕ) =>
    let t : ℚ := (i : ℚ) / (layers' : ℚ)
    let z := height * t
    let r := radius * (1 - (1 - top_scale) * t)
    let rot := rotation_degrees * t
    add_polygon_curve r sides z rot
  match curves with
  | [] => none
  | cs => some (cap_if_possible (Solid.loft cs))

/-- add_spiral_base of the source. -/
def add_spiral_base
    (height radius top_scale waves amplitude layers twist_degrees points_per_wave : ℚ) :
    Option Solid :=
  let layers' := max 2 (pyInt layers)
  let curves := (List.range (layers'.toNat + 1)).map fun (i : ℕ) =>
    let t : ℚ := (i : ℚ) / (layers' : ℚ)
    let z := height * t
    let r := radius * (1 - (1 - top_scale) * t)
    let amp := amplitude * (1 - 0.3 * t)
    let rot := twist_degrees * t
    add_wave_curve r waves ((amp : ℚ) : ℝ) points_per_wave z rot
  match curves with
  | [] => none
  | cs => some (cap_if_possible (Solid.loft cs))

/-- add_ripple_base of the source. -/
def add_ripple_base
    (height radius top_scale waves amplitude layers twist_degrees points_per_wave : ℚ) :
    Option Solid :=
  let layers' := max 2 (pyInt layers)
  let curves := (List.range (layers'.toNat + 1)).map fun (i : ℕ) =>
    let t : ℚ := (i : ℚ) / (layers' : ℚ)
    let z := height * t
    let r := radius * (1 - (1 - top_scale) * t)
    let amp : ℝ := (amplitude : ℝ) * (0.85 + 0.25 * Real.sin ((t : ℝ) * Real.pi))
    let rot := twist_degrees * t
    add_wave_curve r waves amp points_per_wave z rot
  match curves with
  | [] => none
  | cs => some (cap_if_possible (Solid.loft cs))

/-- The through-bore cylinder built by create_base of the source: base
point (0, 0, -2), height base_height + neck_height + 5, radius
port_radius. -/
def create_base_port_cylinder (p : Params) (base_height port_radius : ℚ) : Solid :=
  Solid.cylinder (ptQ 0 0 (-2)) ((base_height + p.neck_height + 5 : ℚ) : ℝ) (port_radius : ℝ)

/-- Z coordinate at which a cylinder solid starts. -/
def Solid.cylinderBaseZ : Solid → Option ℝ
  | .cylinder b _ _ => some b.2.2
  | _ => none

/-- Z coordinate at which a cylinder solid ends. -/
def Solid.cylinderTopZ : Solid → Option ℝ
  | .cylinder b h _ => some (b.2.2 + h)
  | _ => none

/-- Python str.lower of the source dispatch strings.  Lean exposes
String.toLower, but its byte-position recursion does not reduce in the
kernel, so the model maps Char.toLower over the character data, which is
the same function on these ASCII strings. -/
def pyLower (s : String) : String := ⟨s.data.map Char.toLower⟩

/-- create_base of the source: dispatch on base_type, then union the
neck cylinder onto the base and subtract the port bore.  Display naming
is host-document bookkeeping and not part of the model. -/
def create_base (p : Params) (port_radius : ℚ) : Option Solid × ℚ :=
  let base_type := pyLower p.base_type
  let bid_bh : Option Solid × ℚ :=
    if base_type = "cube" then
      (some (add_box_centered p.base_width p.base_depth p.base_height 0), p.base_height)
    else if base_type = "triangle" then
      (some (add_triangle_prism p.triangle_side p.base_height 0), p.base_height)
    else if base_type = "vase" then
      (some (add_vase p.vase_height p.vase_base_radius p.vase_mid_radius p.vase_neck_radius),
        p.vase_height)
    else if base_type ∈ ["twisted", "twist", "faceted"] then
      (add_twisted_base p.twist_height p.twist_radius p.twist_top_scale p.twist_sides
        p.twist_layers p.twist_rotation, p.twist_height)
    else if base_type ∈ ["spiral", "wave", "ripples"] then
      (add_spiral_base p.spiral_height p.spiral_radius p.spiral_top_scale p.spiral_waves
        p.spiral_wave_amp p.spiral_layers p.spiral_twist p.spiral_points_per_wave,
        p.spiral_height)
    else if base_type ∈ ["ripple", "scallop", "scalloped"] then
      (add_ripple_base p.ripple_height p.ripple_radius p.ripple_top_scale p.ripple_waves
        p.ripple_wave_amp p.ripple_layers p.ripple_twist p.ripple_points_per_wave,
        p.ripple_height)
    else (some (add_box_centered p.base_width p.base_depth p.base_height 0), p.base_height)
  let base_id := bid_bh.1
  let base_height := bid_bh.2
  let neck := Solid.cylinder (ptQ 0 0 base_height) (p.neck_height : ℝ) (p.neck_outer_radius : ℝ)
  let base_with_neck := safe_boolean_union [base_id, some neck]
  let base_with_neck :=
    safe_boolean_diff base_with_neck [create_base_port_cylinder p base_height port_radius]
  (base_with_neck, base_height)


/-- build_helix_curve of the source: a polyline helix of max(8, int(steps))
segments from z0 to z1 starting at start_angle degrees with the given
number of turns. -/
def build_helix_curve (radius z0 z1 start_angle turns steps : ℚ) : Curve :=
  let steps' := max 8 (pyInt steps)
  Curve.polyline ((List.range (steps'.toNat + 1)).map fun (i : ℕ) =>
    let t : ℚ := (i : ℚ) / (steps' : ℚ)
    let angle := radiansOf (start_angle + turns * 360 * t)
    (((radius : ℝ) * Real.cos angle, (radius : ℝ) * Real.sin angle,
      ((z0 + (z1 - z0) * t : ℚ) : ℝ)) : Point))

/-- build_helix_pipes of the source: max(1, int(strands)) helix pipes of
the given pipe radius, with start angles spaced by 360/strands plus the
angular offset.  The pipe is capped along the full curve domain. -/
def build_helix_pipes (strands turns radius z0 z1 steps pipe_radius angle_offset : ℚ) :
    List Solid :=
  let strands' := max 1 (pyInt strands)
  let angle_step := 360 / (strands' : ℚ)
  (List.range strands'.toNat).map fun (i : ℕ) =>
    let start_angle := (i : ℚ) * angle_step + angle_offset
    Solid.pipe (build_helix_curve radius z0 z1 start_angle turns steps) pipe_radius

/-- add_slot_pattern of the source. -/
def add_slot_pattern (shade : Option Solid) (p : Params)
    (base_height sleeve_height shade_outer_radius shade_inner_radius : ℚ) :
    Option Solid :=
  let shade_wall := p.shade_wall
  let shade_height := p.shade_height
  let slot_count := pyInt p.slot_count
  if slot_count_guard p then shade
  else
    let slot_depth := clamp_min p.slot_depth (shade_wall + 1)
    let slot_width := p.slot_width
    let slot_margin := p.slot_margin
    let slot_body_height := shade_height - sleeve_height - 2 * slot_margin
    if slot_body_height ≤ shade_wall then shade
    else
      let slot_inner := min (shade_inner_radius - 1) (shade_outer_radius - slot_depth)
      let slot_inner := max 0.5 slot_inner
      let slot_outer := shade_outer_radius + 1
      let slot_min_y := -slot_width / 2
      let slot_max_y := slot_width / 2
      let slots := (List.range slot_count.toNat).filterMap fun (i : ℕ) =>
        let angle : ℚ := (360 / (slot_count : ℚ)) * (i : ℚ)
        let wave : ℝ := 0.5 + 0.5 * Real.sin (radiansOf angle * (p.slot_wave_frequency : ℝ))
        let height_scale : ℝ := 1 - (p.slot_variation : ℝ) * wave
        let slot_h : ℝ := clamp_min ((slot_body_height : ℝ) * height_scale) ((shade_wall : ℝ) * 2)
        let slot_z0 : ℝ := ((base_height + sleeve_height + slot_margin : ℚ) : ℝ)
        let slot_top_limit : ℝ := ((base_height + shade_height - slot_margin : ℚ) : ℝ)
        let slot_h := min slot_h (slot_top_limit - slot_z0)
        if slot_h ≤ (shade_wall : ℝ) then none
        else
          let slot_z1 := slot_z0 + slot_h
          some (Solid.rotatedZ (Solid.box
            [((slot_inner : ℝ), (slot_min_y : ℝ), slot_z0),
              ((slot_outer : ℝ), (slot_min_y : ℝ), slot_z0),
              ((slot_outer : ℝ), (slot_max_y : ℝ), slot_z0),
              ((slot_inner : ℝ), (slot_max_y : ℝ), slot_z0),
              ((slot_inner : ℝ), (slot_min_y : ℝ), slot_z1),
              ((slot_outer : ℝ), (slot_min_y : ℝ), slot_z1),
              ((slot_outer : ℝ), (slot_max_y : ℝ), slot_z1),
              ((slot_inner : ℝ), (slot_max_y : ℝ), slot_z1)]) ((angle : ℚ) : ℝ))
      safe_boolean_diff shade slots

/-- add_lattice_pattern of the source. -/
def add_lattice_pattern (shade : Option Solid) (p : Params)
    (base_height sleeve_height shade_outer_radius shade_inner_radius : ℚ) :
    Option Solid :=
  let shade_wall := p.shade_wall
  let shade_height := p.shade_height
  let rows := pyInt p.lattice_rows
  let columns := pyInt p.lattice_columns
  if lattice_count_guard p then shade
  else
    let margin := p.lattice_margin
    let available_height := shade_height - sleeve_height - 2 * margin
    if available_height ≤ shade_wall then shade
    else
      let row_step := available_height / (rows : ℚ)
      let window_height := min p.lattice_window_height (row_step * 0.85)
      if window_height ≤ shade_wall then shade
      else
        let window_depth := clamp_min p.lattice_window_depth (shade_wall + 1)
        let window_width := p.lattice_window_width
        let angle_step := 360 / (columns : ℚ)
        let slot_inner := max 0.5 (min (shade_inner_radius - 1) (shade_outer_radius - window_depth))
        let slot_outer := shade_outer_radius + 1
        let slot_min_y := -window_width / 2
        let slot_max_y := window_width / 2
        let slots := ((List.range rows.toNat).map fun (row : ℕ) =>
          let row_center := base_height + sleeve_height + margin + row_step * ((row : ℚ) + 0.5)
          let z0 := row_center - window_height / 2
          let z1 := row_center + window_height / 2
          let z0 := max z0 (base_height + sleeve_height + margin)
          let z1 := min z1 (base_height + shade_height - margin)
          if z1 - z0 ≤ shade_wall then []
          else
            let row_twist := (row : ℚ) * p.lattice_twist_degrees
            let row_offset := (↑(row % 2) : ℚ) * p.lattice_offset_ratio * angle_step
            (List.range columns.toNat).map fun (col : ℕ) =>
              let angle := (col : ℚ) * angle_step + row_offset + row_twist
              Solid.rotatedZ (Solid.box
                [((slot_inner : ℝ), (slot_min_y : ℝ), (z0 : ℝ)),
                  ((slot_outer : ℝ), (slot_min_y : ℝ), (z0 : ℝ)),
                  ((slot_outer : ℝ), (slot_max_y : ℝ), (z0 : ℝ)),
                  ((slot_inner : ℝ), (slot_max_y : ℝ), (z0 : ℝ)),
                  ((slot_inner : ℝ), (slot_min_y : ℝ), (z1 : ℝ)),
                  ((slot_outer : ℝ), (slot_min_y : ℝ), (z1 : ℝ)),
                  ((slot_outer : ℝ), (slot_max_y : ℝ), (z1 : ℝ)),
                  ((slot_inner : ℝ), (slot_max_y : ℝ), (z1 : ℝ))]) ((angle : ℚ) : ℝ)).flatten
        safe_boolean_diff shade slots

/-- add_weave_pattern of the source. -/
def add_weave_pattern (shade : Option Solid) (p : Params)
    (base_height sleeve_height shade_outer_radius shade_inner_radius : ℚ) :
    Option Solid :=
  let shade_wall := p.shade_wall
  let shade_height := p.shade_height
  let strands := pyInt p.weave_strand_count
  if weave_count_guard p then shade
  else
    let margin := p.weave_margin
    let z0 := base_height + sleeve_height + margin
    let z1 := base_height + shade_height - margin
    if z1 - z0 ≤ shade_wall then shade
    else
      let turns := p.weave_turns
      let steps := max 8 (pyInt p.weave_steps)
      let pipe_center_radius := max 0.5 (shade_outer_radius - shade_wall * 0.5)
      let min_pipe_radius := shade_wall * 0.5 + 0.2
      let pipe_radius := max p.weave_pipe_radius min_pipe_radius
      let angle_step := 360 / (strands : ℚ)
      let pipes :=
        build_helix_pipes (strands : ℚ) turns pipe_center_radius z0 z1 (steps : ℚ)
            pipe_radius 0 ++
          build_helix_pipes (strands : ℚ) (-turns) pipe_center_radius z0 z1 (steps : ℚ)
            pipe_radius (angle_step * 0.5)
      safe_boolean_diff shade pipes

/-- add_moire_pattern of the source. -/
def add_moire_pattern (shade : Option Solid) (p : Params)
    (base_height sleeve_height shade_outer_radius shade_inner_radius : ℚ) :
    Option Solid :=
  let shade_wall := p.shade_wall
  let shade_height := p.shade_height
  let strands := pyInt p.moire_strand_count
  if moire_count_guard p then shade
  else
    let margin := p.moire_margin
    let z0 := base_height + sleeve_height + margin
    let z1 := base_height + shade_height - margin
    if z1 - z0 ≤ shade_wall then shade
    else
      let turns_primary := p.moire_turns_primary
      let turns_secondary := p.moire_turns_secondary
      let steps := max 12 (pyInt p.moire_steps)
      let pipe_center_radius := max 0.5 (shade_outer_radius - shade_wall * 0.5)
      let min_pipe_radius := shade_wall * 0.45 + 0.15
      let pipe_radius := max p.moire_pipe_radius min_pipe_radius
      let angle_step := 360 / (strands : ℚ)
      let cutters :=
        build_helix_pipes (strands : ℚ) turns_primary pipe_center_radius z0 z1 (steps : ℚ)
            pipe_radius 0 ++
          build_helix_pipes (strands : ℚ) (-turns_primary) pipe_center_radius z0 z1 (steps : ℚ)
            pipe_radius (angle_step * 0.5) ++
          build_helix_pipes (strands : ℚ) turns_secondary pipe_center_radius z0 z1 (steps : ℚ)
            (pipe_radius * 0.75) (angle_step * 0.25)
      let ring_count := pyInt p.moire_rings
      let cutters := cutters ++
        (if 0 < ring_count then
          let ring_radius := max 0.6 p.moire_ring_radius
          let step := (z1 - z0) / ((ring_count : ℚ) + 1)
          (List.range ring_count.toNat).map fun (i : ℕ) =>
            let z := z0 + step * ((i : ℚ) + 1)
            Solid.torus (ptQ 0 0 z) (pipe_center_radius : ℝ) (ring_radius : ℝ)
        else [])
      safe_boolean_diff shade cutters

/-- add_bubble_pattern of the source. -/
def add_bubble_pattern (shade : Option Solid) (p : Params)
    (base_height sleeve_height shade_outer_radius shade_inner_radius : ℚ) :
    Option Solid :=
  let shade_wall := p.shade_wall
  let shade_height := p.shade_height
  let rows := pyInt p.bubble_rows
  let columns := pyInt p.bubble_columns
  if bubble_count_guard p then shade
  else
    let margin := p.bubble_margin
    let z0 := base_height + sleeve_height + margin
    let z1 := base_height + shade_height - margin
    if z1 - z0 ≤ shade_wall then shade
    else
      let row_step := (z1 - z0) / (rows : ℚ)
      let angle_step := 360 / (columns : ℚ)
      let center_radius := shade_outer_radius - shade_wall * 0.4
      let center_radius := max center_radius (shade_inner_radius + p.bubble_radius * 0.6)
      let base_radius := max p.bubble_radius (shade_wall * 0.8)
      let bubbles := ((List.range rows.toNat).map fun (row : ℕ) =>
        let row_phase := (row : ℚ) * p.bubble_wave_frequency
        let wave : ℝ := 0.5 + 0.5 * Real.sin ((row_phase : ℚ) : ℝ)
        let radius_scale : ℝ := 1 - (p.bubble_radius_variation : ℝ) * wave
        let bubble_radius : ℝ := max ((base_radius : ℝ) * radius_scale) ((shade_wall : ℝ) * 0.8)
        let row_offset := (↑(row % 2) : ℚ) * p.bubble_offset_ratio * angle_step
        let z := z0 + row_step * ((row : ℚ) + 0.5)
        (List.range columns.toNat).map fun (col : ℕ) =>
          let angle := (col : ℚ) * angle_step + row_offset + (row : ℚ) * p.bubble_twist
          let angle_rad := radiansOf angle
          let x := (center_radius : ℝ) * Real.cos angle_rad
          let y := (center_radius : ℝ) * Real.sin angle_rad
          Solid.sphere ((x, y, ((z : ℚ) : ℝ)) : Point) bubble_radius).flatten
      safe_boolean_diff shade bubbles

/-- Modelled from the spec: the geometry kernel surface-query interface of
spec section 6 (domain-in-U, domain-in-V, evaluate-point-at, normal-at) for
a kernel-resident surface.  The kernel is an external collaborator (spec
section 1 and 6) and its parametric surface evaluation is not part of the
program source, so it is abstract here. -/
structure PatternSurface where
  domU : ℝ × ℝ
  domV : ℝ × ℝ
  evalPoint : ℝ → ℝ → Option Point
  normalAt : ℝ → ℝ → Option Point

/-- Modelled from the spec: the kernel operation that interprets the
un-capped outer loft surface of a lofted shade as a parametric surface
(spec section 4.5); abstract because the kernel is out of scope. -/
structure SurfaceKernel where
  loftSurface : List Curve → PatternSurface

/-- rs.VectorScale. -/
def vectorScale (v : Point) (s : ℝ) : Point := (v.1 * s, v.2.1 * s, v.2.2 * s)

/-- rs.PointAdd. -/
def pointAdd (a b : Point) : Point := (a.1 + b.1, a.2.1 + b.2.1, a.2.2 + b.2.2)

/-- rs.VectorUnitize: fails exactly on the zero vector. -/
def vectorUnitize (v : Point) : Option Point :=
  if v.1 = 0 ∧ v.2.1 = 0 ∧ v.2.2 = 0 then none
  else some (vectorScale v (1 / Real.sqrt (v.1 ^ 2 + v.2.1 ^ 2 + v.2.2 ^ 2)))

/-- add_blobtrude_pattern of the source. -/
def add_blobtrude_pattern (shade : Option Solid) (p : Params)
    (pattern_surface : Option PatternSurface) (base_height sleeve_height : ℚ) :
    Option Solid :=
  match shade, pattern_surface with
  | none, _ => none
  | some _, none => shade
  | some _, some surf =>
    let rows := pyInt p.blob_rows
    let columns := pyInt p.blob_columns
    if blob_count_guard p then shade
    else
      let dom_u := surf.domU
      let dom_v := surf.domV
      let u_range := dom_u.2 - dom_u.1
      let v_range := dom_v.2 - dom_v.1
      if u_range ≤ 0 ∨ v_range ≤ 0 then shade
      else
        let margin := p.blob_margin
        let base_radius := max p.blob_radius (p.shade_wall * 0.7)
        let wave_freq := p.blob_wave_frequency
        let mangle := p.blob_mangle
        let jitter := p.blob_jitter
        let row_twist := p.blob_twist
        let blobs := ((List.range rows.toNat).map fun (row : ℕ) =>
          let v := dom_v.1 + v_range * ((row : ℝ) + 0.5) / (rows : ℝ)
          let u_twist := ((row_twist : ℝ) * (row : ℝ) / (rows : ℝ)) / 360 * u_range
          (List.range columns.toNat).filterMap fun (col : ℕ) =>
            let u := dom_u.1 + u_range * ((col : ℝ) + 0.5) / (columns : ℝ) + u_twist
            let u_offset :=
              Real.sin (((row : ℝ) + (col : ℝ)) * (wave_freq : ℝ)) * (mangle : ℝ) *
                (u_range / (columns : ℝ))
            let u := clamp_range (u + u_offset) dom_u.1 dom_u.2
            match surf.evalPoint u v with
            | none => none
            | some pt0 =>
              if pt0.2.2 < ((base_height + sleeve_height + margin : ℚ) : ℝ) then none
              else if pt0.2.2 > ((base_height + p.shade_height - margin : ℚ) : ℝ) then none
              else
                match (surf.normalAt u v).bind vectorUnitize with
                | none => none
                | some normal =>
                  let pt := match vectorUnitize (pt0.1, pt0.2.1, 0) with
                    | some radial => pointAdd pt0 (vectorScale radial (jitter : ℝ))
                    | none => pt0
                  let wave := 0.5 + 0.5 * Real.sin (((row : ℝ) * 1.1 + (col : ℝ)) * (wave_freq : ℝ))
                  let radius := (base_radius : ℝ) * (1 - (p.blob_radius_variation : ℝ) * wave)
                  let radius := max radius ((p.shade_wall : ℝ) * 0.6)
                  let offset :=
                    (p.blob_offset : ℝ) * (0.75 + 0.25 * Real.cos (((row : ℝ) + (col : ℝ)) * 0.8))
                  let center := pointAdd pt (vectorScale normal offset)
                  some (Solid.sphere center radius)).flatten
        safe_boolean_diff shade blobs

/-- apply_shade_pattern of the source: dispatch on the lowered
shade_pattern string, with passthrough for a null shade or the pattern
"none", and the slot pattern as the fallback arm. -/
def apply_shade_pattern (shade : Option Solid) (p : Params)
    (base_height sleeve_height shade_outer_radius shade_inner_radius : ℚ)
    (pattern_surface : Option PatternSurface) : Option Solid :=
  let pattern := pyLower p.shade_pattern
  if shade.isNone ∨ pattern = "none" then shade
  else if pattern ∈ ["blobtrude", "manglutified", "mangle", "blob"] then
    add_blobtrude_pattern shade p pattern_surface base_height sleeve_height
  else if pattern = "bubble" then
    add_bubble_pattern shade p base_height sleeve_height shade_outer_radius shade_inner_radius
  else if pattern = "moire" then
    add_moire_pattern shade p base_height sleeve_height shade_outer_radius shade_inner_radius
  else if pattern = "weave" then
    add_weave_pattern shade p base_height sleeve_height shade_outer_radius shade_inner_radius
  else if pattern = "lattice" then
    add_lattice_pattern shade p base_height sleeve_height shade_outer_radius shade_inner_radius
  else
    add_slot_pattern shade p base_height sleeve_height shade_outer_radius shade_inner_radius

/-- create_lofted_shade of the source: outer loft between the bottom and
top polygon profiles, capped; inner loft at wall offset from sleeve height
upward, capped; sleeve cylinder; subtract both from the outer shell.  The
duplicate of the un-capped outer loft is retained as the pattern surface,
interpreted through the abstract surface kernel. -/
def create_lofted_shade (K : SurfaceKernel) (p : Params) (base_height : ℚ) :
    Option Solid × Option PatternSurface :=
  let shade_outer_radius := p.shade_outer_radius
  let shade_height := p.shade_height
  let shade_wall := p.shade_wall
  let sleeve_height := p.sleeve_height
  let sleeve_inner_radius := lofted_sleeve_inner_radius p
  let bottom_z := base_height
  let top_z := base_height + shade_height
  let top_radius := shade_outer_radius * p.shade_loft_top_scale
  let bottom_curve := add_polygon_curve shade_outer_radius p.shade_loft_bottom_sides bottom_z 0
  let top_curve := add_polygon_curve top_radius p.shade_loft_top_sides top_z p.shade_loft_twist
  let outer_loft := Solid.loft [bottom_curve, top_curve]
  let outer_shell := cap_if_possible outer_loft
  let inner_bottom_radius := max (shade_outer_radius - shade_wall) shade_wall
  let inner_top_radius := max (top_radius - shade_wall) shade_wall
  let inner_bottom_curve :=
    add_polygon_curve inner_bottom_radius p.shade_loft_bottom_sides (base_height + sleeve_height) 0
  let inner_top_curve :=
    add_polygon_curve inner_top_radius p.shade_loft_top_sides top_z p.shade_loft_twist
  let inner_shell := cap_if_possible (Solid.loft [inner_bottom_curve, inner_top_curve])
  let inner_sleeve :=
    Solid.cylinder (ptQ 0 0 base_height) (sleeve_height : ℝ) (sleeve_inner_radius : ℝ)
  let shade := safe_boolean_diff (some outer_shell) [inner_shell, inner_sleeve]
  (shade, some (K.loftSurface [bottom_curve, top_curve]))

/-- create_shade of the source: cylindrical or lofted shell construction,
then the pattern step.  Display naming and the discard of the consumed
pattern surface are host-document bookkeeping and not part of the model. -/
def create_shade (K : SurfaceKernel) (p : Params) (base_height : ℚ) : Option Solid :=
  let shade_outer_radius := p.shade_outer_radius
  let shade_wall := p.shade_wall
  let shade_height := p.shade_height
  let sleeve_height := p.sleeve_height
  let shade_inner_radius := shade_outer_radius - shade_wall
  let sleeve_inner_radius := shade_sleeve_inner_radius p
  let shade_form := pyLower p.shade_form
  let sp : Option Solid × Option PatternSurface :=
    if shade_form = "lofted" then create_lofted_shade K p base_height
    else
      let outer :=
        Solid.cylinder (ptQ 0 0 base_height) (shade_height : ℝ) (shade_outer_radius : ℝ)
      let upper_height := clamp_min (shade_height - sleeve_height) (shade_wall * 2)
      let inner_upper :=
        Solid.cylinder (ptQ 0 0 (base_height + sleeve_height)) (upper_height : ℝ)
          (shade_inner_radius : ℝ)
      let inner_sleeve :=
        Solid.cylinder (ptQ 0 0 base_height) (sleeve_height : ℝ) (sleeve_inner_radius : ℝ)
      (safe_boolean_diff (some outer) [inner_upper, inner_sleeve], none)
  apply_shade_pattern sp.1 p base_height sleeve_height shade_outer_radius shade_inner_radius sp.2


theorem getLast_append_take_one {α : Type} (l : List α) :
    (l ++ l.take 1).getLast? = (l ++ l.take 1).head? := by
  cases l with
  | nil => simp
  | cons a t =>
    show ((a :: t) ++ [a]).getLast? = ((a :: t) ++ [a]).head?
    rw [List.getLast?_concat]
    rfl

/-- C10: add_polygon_curve is total in its sides argument: it always uses
max(3, int(sides)) vertices, so the closed polyline has at least 4 points
(at least 3 vertices plus the repeated closing point) and its last point
repeats its first, for every radius, z, rotation and sides value. -/
theorem polygon_curve_total (radius sides z rotation_degrees : ℚ) :
    (polygon_pts radius sides z rotation_degrees).length = (max 3 (pyInt sides)).toNat + 1 ∧
    4 ≤ (polygon_pts radius sides z rotation_degrees).length ∧
    (polygon_pts radius sides z rotation_degrees).getLast? =
      (polygon_pts radius sides z rotation_degrees).head? ∧
    add_polygon_curve radius sides z rotation_degrees =
      Curve.polyline (polygon_pts radius sides z rotation_degrees) := by
  have h3 : 3 ≤ (max 3 (pyInt sides)).toNat := by
    have := le_max_left 3 (pyInt sides)
    omega
  have hlen : (polygon_pts radius sides z rotation_degrees).length =
      (max 3 (pyInt sides)).toNat + 1 := by
    have hm : ∀ (f : ℕ → Point) (n : ℕ), 1 ≤ n →
        (((List.range n).map f) ++ ((List.range n).map f).take 1).length = n + 1 := by
      intro f n hn
      rw [List.length_append, List.length_map, List.length_range, List.length_take,
        List.length_map, List.length_range, min_eq_left hn]
    simp only [polygon_pts]
    refine hm _ _ ?_
    omega
  refine ⟨hlen, by omega, ?_, rfl⟩
  simp only [polygon_pts]
  exact getLast_append_take_one _

/-- C5 counterexample: with the default parameters (neck_height 14) and
base height 52, the through-bore cylinder starts at z = -2 with height
52 + 14 + 5, so its top is at z = 69, not at 52 + 14 + 5 = 71 as the
claim states. -/
theorem port_bore_top_counterexample :
    (create_base_port_cylinder PARAMS 52 17.6).cylinderTopZ = some (69 : ℝ) ∧
    (create_base_port_cylinder PARAMS 52 17.6).cylinderTopZ ≠
      some ((52 : ℝ) + 14 + 5) := by
  have h : (create_base_port_cylinder PARAMS 52 17.6).cylinderTopZ = some (69 : ℝ) := by
    simp only [create_base_port_cylinder, Solid.cylinderTopZ, ptQ, PARAMS]
    norm_num
  refine ⟨h, ?_⟩
  rw [h]
  simp only [ne_eq, Option.some.injEq]
  norm_num

/-- C5 amended: the through-bore cylinder of create_base spans from
z = -2 to z = baseHeight + neck_height + 3: its height argument is
baseHeight + neck_height + 5, but the cylinder is seated at z = -2, so the
overshoot above the neck top is 3, not 5. -/
theorem port_bore_span (p : Params) (base_height port_radius : ℚ) :
    (create_base_port_cylinder p base_height port_radius).cylinderBaseZ = some (-2 : ℝ) ∧
    (create_base_port_cylinder p base_height port_radius).cylinderTopZ =
      some ((base_height : ℝ) + (p.neck_height : ℝ) + 3) := by
  constructor
  · simp only [create_base_port_cylinder, Solid.cylinderBaseZ, ptQ]
    norm_num
  · simp only [create_base_port_cylinder, Solid.cylinderTopZ, ptQ]
    push_cast
    norm_num
    ring


/-- C8: the regular polygon profile with radius 10, 4 sides, z 0 and
rotation 0 is a closed polyline of exactly 5 points (4 vertices and the
repeated first point), with first point (10, 0, 0) and second point
(0, 10, 0). -/
theorem polygon_square_scenario :
    (polygon_pts 10 4 0 0).length = 5 ∧
    (polygon_pts 10 4 0 0).head? = some (((10 : ℝ), 0, 0) : Point) ∧
    (polygon_pts 10 4 0 0)[1]? = some (((0 : ℝ), 10, 0) : Point) ∧
    (polygon_pts 10 4 0 0).getLast? = (polygon_pts 10 4 0 0).head? := by
  have hz : max 3 (pyInt (4 : ℚ)) = (4 : ℤ) := by norm_num [pyInt]
  have hr : List.range ((4 : ℤ)).toNat = [0, 1, 2, 3] := rfl
  have h0 : radiansOf (0 + ((0 : ℕ) : ℚ) * (360 / ((4 : ℤ) : ℚ))) = 0 := by
    simp [radiansOf]
  have h90 : radiansOf (0 + ((1 : ℕ) : ℚ) * (360 / ((4 : ℤ) : ℚ))) = Real.pi / 2 := by
    have harg : (0 + ((1 : ℕ) : ℚ) * (360 / ((4 : ℤ) : ℚ))) = 90 := by norm_num
    rw [harg, radiansOf]
    push_cast
    ring
  refine ⟨?_, ?_, ?_, ?_⟩
  · simp only [polygon_pts, hz, hr, List.map_cons, List.map_nil]
    rfl
  · simp only [polygon_pts, hz, hr, List.map_cons, List.map_nil, List.take,
      List.cons_append, List.head?_cons, Option.some.injEq, h0]
    norm_num
  · simp only [polygon_pts, hz, hr, List.map_cons, List.map_nil, List.take,
      List.cons_append, List.getElem?_cons_succ, List.getElem?_cons_zero,
      Option.some.injEq, h90]
    norm_num
    rfl
  · simp only [polygon_pts, hz, hr, List.map_cons, List.map_nil, List.take]
    rfl


theorem safe_diff_ne (s : Solid) (l : List Solid) (h : l ≠ []) :
    safe_boolean_diff (some s) l ≠ some s := by
  cases l with
  | nil => exact absurd rfl h
  | cons a t =>
    simp only [safe_boolean_diff, ne_eq, Option.some.injEq]
    exact diff_ne_target s (a :: t)

theorem build_helix_pipes_ne_nil (strands turns radius z0 z1 steps pipe_radius angle_offset : ℚ) :
    build_helix_pipes strands turns radius z0 z1 steps pipe_radius angle_offset ≠ [] := by
  simp only [build_helix_pipes, ne_eq, List.map_eq_nil_iff, List.range_eq_nil]
  have := le_max_left 1 (pyInt strands)
  omega

theorem add_slot_noop (shade : Option Solid) (p : Params) (bh sh orr irr : ℚ)
    (h : slot_count_guard p = true) :
    add_slot_pattern shade p bh sh orr irr = shade := by
  simp [add_slot_pattern, h]

theorem add_lattice_noop (shade : Option Solid) (p : Params) (bh sh orr irr : ℚ)
    (h : lattice_count_guard p = true) :
    add_lattice_pattern shade p bh sh orr irr = shade := by
  simp [add_lattice_pattern, h]

theorem add_weave_noop (shade : Option Solid) (p : Params) (bh sh orr irr : ℚ)
    (h : weave_count_guard p = true) :
    add_weave_pattern shade p bh sh orr irr = shade := by
  simp [add_weave_pattern, h]

theorem add_bubble_noop (shade : Option Solid) (p : Params) (bh sh orr irr : ℚ)
    (h : bubble_count_guard p = true) :
    add_bubble_pattern shade p bh sh orr irr = shade := by
  simp [add_bubble_pattern, h]

theorem apply_dispatch_slot (s : Solid) (p : Params) (bh sh orr irr : ℚ)
    (surfo : Option PatternSurface) (h : pyLower p.shade_pattern = "slots") :
    apply_shade_pattern (some s) p bh sh orr irr surfo =
      add_slot_pattern (some s) p bh sh orr irr := by
  simp [apply_shade_pattern, h]

theorem apply_dispatch_lattice (s : Solid) (p : Params) (bh sh orr irr : ℚ)
    (surfo : Option PatternSurface) (h : pyLower p.shade_pattern = "lattice") :
    apply_shade_pattern (some s) p bh sh orr irr surfo =
      add_lattice_pattern (some s) p bh sh orr irr := by
  simp [apply_shade_pattern, h]

theorem apply_dispatch_weave (s : Solid) (p : Params) (bh sh orr irr : ℚ)
    (surfo : Option PatternSurface) (h : pyLower p.shade_pattern = "weave") :
    apply_shade_pattern (some s) p bh sh orr irr surfo =
      add_weave_pattern (some s) p bh sh orr irr := by
  simp [apply_shade_pattern, h]

theorem weave_applies (s : Solid) (p : Params) (bh sh orr irr : ℚ)
    (h1 : weave_count_guard p = false)
    (h2 : ¬ (bh + p.shade_height - p.weave_margin - (bh + sh + p.weave_margin) ≤ p.shade_wall)) :
    add_weave_pattern (some s) p bh sh orr irr ≠ some s := by
  simp only [add_weave_pattern, h1, Bool.false_eq_true, if_false]
  rw [if_neg h2]
  apply safe_diff_ne
  intro hnil
  exact build_helix_pipes_ne_nil _ _ _ _ _ _ _ _ (List.append_eq_nil.mp hnil).1

/-- C7 amended: through the pipeline (normalization, then the pattern
step), slot_count = 0, lattice_rows = 0 and lattice_columns = 0 each leave
the shade shell unmodified, because normalize_params does not touch the
slot and lattice counts and the generators early-return on them.  The
zero-count early returns of the weave and bubble generators hold only when
those generators are invoked directly on unnormalized parameters:
normalize_params raises weave_strand_count, bubble_rows and bubble_columns
to 2, 1 and 6 before the pattern step, so through the pipeline those
settings do not yield an unmodified shade (see the counterexample). -/
theorem zero_count_patterns (s : Solid) (p : Params) (bh sh orr irr : ℚ) :
    apply_shade_pattern (some s)
        (normalize_params { p with shade_pattern := "slots", slot_count := 0 }).1 bh
        (normalize_params { p with shade_pattern := "slots", slot_count := 0 }).1.sleeve_height
        orr irr none = some s ∧
    apply_shade_pattern (some s)
        (normalize_params { p with shade_pattern := "lattice", lattice_rows := 0 }).1 bh
        (normalize_params { p with shade_pattern := "lattice", lattice_rows := 0 }).1.sleeve_height
        orr irr none = some s ∧
    apply_shade_pattern (some s)
        (normalize_params { p with shade_pattern := "lattice", lattice_columns := 0 }).1 bh
        (normalize_params { p with shade_pattern := "lattice", lattice_columns := 0 }).1.sleeve_height
        orr irr none = some s ∧
    add_weave_pattern (some s) { p with weave_strand_count := 0 } bh sh orr irr = some s ∧
    add_bubble_pattern (some s) { p with bubble_rows := 0 } bh sh orr irr = some s ∧
    add_bubble_pattern (some s) { p with bubble_columns := 0 } bh sh orr irr = some s := by
  refine ⟨?_, ?_, ?_, ?_, ?_, ?_⟩
  · have hpat : pyLower (normalize_params { p with shade_pattern := "slots", slot_count := 0 }).1.shade_pattern = "slots" := by
      show pyLower "slots" = "slots"
      decide
    rw [apply_dispatch_slot _ _ _ _ _ _ _ hpat]
    apply add_slot_noop
    simp only [slot_count_guard, decide_eq_true_eq]
    show pyInt (0 : ℚ) ≤ 0
    norm_num [pyInt]
  · have hpat : pyLower (normalize_params { p with shade_pattern := "lattice", lattice_rows := 0 }).1.shade_pattern = "lattice" := by
      show pyLower "lattice" = "lattice"
      decide
    rw [apply_dispatch_lattice _ _ _ _ _ _ _ hpat]
    apply add_lattice_noop
    simp only [lattice_count_guard, decide_eq_true_eq]
    left
    show pyInt (0 : ℚ) ≤ 0
    norm_num [pyInt]
  · have hpat : pyLower (normalize_params { p with shade_pattern := "lattice", lattice_columns := 0 }).1.shade_pattern = "lattice" := by
      show pyLower "lattice" = "lattice"
      decide
    rw [apply_dispatch_lattice _ _ _ _ _ _ _ hpat]
    apply add_lattice_noop
    simp only [lattice_count_guard, decide_eq_true_eq]
    right
    show pyInt (0 : ℚ) ≤ 0
    norm_num [pyInt]
  · apply add_weave_noop
    simp only [weave_count_guard, decide_eq_true_eq]
    show pyInt (0 : ℚ) ≤ 0
    norm_num [pyInt]
  · apply add_bubble_noop
    simp only [bubble_count_guard, decide_eq_true_eq]
    left
    show pyInt (0 : ℚ) ≤ 0
    norm_num [pyInt]
  · apply add_bubble_noop
    simp only [bubble_count_guard, decide_eq_true_eq]
    right
    show pyInt (0 : ℚ) ≤ 0
    norm_num [pyInt]

/-- C7 counterexample: with the defaults, shade_pattern = "weave" and
weave_strand_count = 0, the pipeline does not return the shade unchanged:
normalize_params raises weave_strand_count to 2, the weave generator builds
four helix pipes and the pattern step subtracts them from the shade. -/
theorem zero_count_pipeline_counterexample :
    apply_shade_pattern (some (Solid.sphere (ptQ 0 0 0) 1))
        (normalize_params { PARAMS with shade_pattern := "weave", weave_strand_count := 0 }).1
        52
        (normalize_params { PARAMS with shade_pattern := "weave", weave_strand_count := 0 }).1.sleeve_height
        (normalize_params { PARAMS with shade_pattern := "weave", weave_strand_count := 0 }).1.shade_outer_radius
        ((normalize_params { PARAMS with shade_pattern := "weave", weave_strand_count := 0 }).1.shade_outer_radius -
          (normalize_params { PARAMS with shade_pattern := "weave", weave_strand_count := 0 }).1.shade_wall)
        none ≠
      some (Solid.sphere (ptQ 0 0 0) 1) := by
  have hpat : pyLower (normalize_params { PARAMS with shade_pattern := "weave", weave_strand_count := 0 }).1.shade_pattern = "weave" := by
    show pyLower "weave" = "weave"
    decide
  rw [apply_dispatch_weave _ _ _ _ _ _ _ hpat]
  have hws : (normalize_params { PARAMS with shade_pattern := "weave", weave_strand_count := 0 }).1.weave_strand_count = 2 := by
    rw [np_weave_strand]
    show ((max 2 (pyInt (0 : ℚ)) : ℤ) : ℚ) = 2
    norm_num [pyInt]
  have h1 : weave_count_guard (normalize_params { PARAMS with shade_pattern := "weave", weave_strand_count := 0 }).1 = false := by
    simp only [weave_count_guard, decide_eq_false_iff_not]
    rw [hws]
    norm_num [pyInt]
  have hsh : (normalize_params { PARAMS with shade_pattern := "weave", weave_strand_count := 0 }).1.shade_height = 138 := by
    rw [np_shade_height]
    show (if (138 : ℚ) < 14 + 2.6 * 2 then (14 : ℚ) + 2.6 * 2 else 138) = 138
    norm_num
  have hsl : (normalize_params { PARAMS with shade_pattern := "weave", weave_strand_count := 0 }).1.sleeve_height = 16 := by
    rw [np_sleeve, np_shade_height]
    show (if (if (16 : ℚ) < 14 then (14 : ℚ) + 1 else 16) >
        (if (138 : ℚ) < 14 + 2.6 * 2 then (14 : ℚ) + 2.6 * 2 else 138) - 2.6 * 2
      then (if (138 : ℚ) < 14 + 2.6 * 2 then (14 : ℚ) + 2.6 * 2 else 138) - 2.6 * 2
      else if (16 : ℚ) < 14 then (14 : ℚ) + 1 else 16) = 16
    norm_num
  have hwm : (normalize_params { PARAMS with shade_pattern := "weave", weave_strand_count := 0 }).1.weave_margin = 12 := rfl
  have hswall : (normalize_params { PARAMS with shade_pattern := "weave", weave_strand_count := 0 }).1.shade_wall = 2.6 := rfl
  apply weave_applies
  · exact h1
  · rw [hsh, hsl, hwm, hswall]
    norm_num

end
